import Mathlib

/-!
# NextTrack recommendation engine — formal model

A shallow embedding of the pure scoring / sequence-analysis core of the
NextTrack music-recommendation service (the `/api/recommend` route handlers).
Numbers that JavaScript holds as IEEE doubles are modelled as exact rationals
(`Rat`); all the weights involved (0.2, 0.3, 0.4, 0.5, 0.6, 0.8, small
integers, divisions by 50/100) are exactly representable, and the source
performs no operation that loses exactness on the inputs considered here.
Optional JS fields become `Option`, and JS truthiness on numbers (`0`,
`undefined` and `NaN` are falsy) is modelled explicitly where the source
relies on it.
-/

attribute [local semireducible] Rat.mul Rat.inv Rat.add Rat.sub Rat.ofScientific

namespace NextTrack

/-- Track metadata record (`TrackMetadata` in both route variants):
id, title, artist, genre are strings; popularity, releaseYear, album are
optional. -/
structure TrackMetadata where
  id : String
  title : String
  artist : String
  genre : String
  popularity : Option Int
  releaseYear : Option Int
  album : Option String
deriving DecidableEq

/-- A caller-supplied reference track (`SelectedTrack`): we keep the fields
the scoring code reads. `artists` holds the artist names; Spotify track
objects always carry at least one artist, and the code only ever reads
`artists[0]?.name`. -/
structure SelectedTrack where
  id : String
  name : String
  artists : List String
  album : String
  popularity : Int
deriving DecidableEq

/-- The first artist name of a selected track (`track.artists[0]?.name`). -/
def firstArtist (s : SelectedTrack) : String := s.artists.headD ""

/-- A scored recommendation entry (`{ track, score }`). -/
structure Recommendation where
  track : TrackMetadata
  score : Rat
deriving DecidableEq

/-- JS `x || d` on an optional number: `undefined` and `0` are falsy and
yield the default. Used for `track.popularity || 50` and
`track.releaseYear || new Date().getFullYear()`. -/
def jsOrI (o : Option Int) (d : Int) : Int :=
  match o with
  | none => d
  | some v => if v = 0 then d else v

/-- JS truthiness of an optional number: `undefined`, `0` are falsy. -/
def truthyPop (o : Option Int) : Bool :=
  match o with
  | none => false
  | some v => decide (v ≠ 0)

/-! ## Sequence analyzer: trend filters

Source (`calculatePopularityTrend` / `calculateReleaseYearTrend`, identical
in both route variants):

```
tracks.map(track => track.popularity || 50)
      .filter((p, index, arr) => index === 0 || Math.abs(p - arr[index-1]) > 10)
```

`arr` is the *mapped input array*, so the filter compares each element with
the element at the previous *input* index, whether or not that element was
kept. `trendFilter` embeds this literally: it enumerates the array with
indices and keeps entry `i` iff `i = 0` or `|arr[i] - arr[i-1]| > t`. -/

/-- The JS `filter((v, index, arr) => index === 0 || |v - arr[index-1]| > t)`
idiom, taking the threshold `t`. -/
def trendFilter (t : Nat) (arr : List Int) : List Int :=
  ((List.enumFrom 0 arr).filter
    (fun p => decide (p.1 = 0) || decide ((p.2 - arr.getD (p.1 - 1) 0).natAbs > t))).map
    Prod.snd

/-- `calculatePopularityTrend`: default popularity 50 (JS `||`), keep change
points with threshold 10. -/
def calculatePopularityTrend (tracks : List TrackMetadata) : List Int :=
  trendFilter 10 (tracks.map fun tr => jsOrI tr.popularity 50)

/-- `calculateReleaseYearTrend`: default year is the wall-clock current year
(`new Date().getFullYear()`), passed here explicitly as `currentYear`;
threshold 2. -/
def calculateReleaseYearTrend (currentYear : Int) (tracks : List TrackMetadata) : List Int :=
  trendFilter 2 (tracks.map fun tr => jsOrI tr.releaseYear currentYear)

/-- Tail worker for `keepByPrev`: `prev` is the previous input element. -/
def keepByPrevGo (t : Nat) (prev : Int) : List Int → List Int
  | [] => []
  | x :: xs => if (x - prev).natAbs > t then x :: keepByPrevGo t x xs else keepByPrevGo t x xs

/-- Reference form of the filter the code actually computes: keep the first
point, and keep a later point iff it differs from the *immediately
preceding input point* (kept or not) by more than `t`. -/
def keepByPrev (t : Nat) : List Int → List Int
  | [] => []
  | a :: rest => a :: keepByPrevGo t a rest

theorem keepByPrevGo_bridge (t : Nat) (arr : List Int) :
    ∀ (rest : List Int) (n : Nat) (prev : Int),
      (∀ j : Nat, arr.getD (n + j) 0 = (prev :: rest).getD j 0) →
      ((List.enumFrom (n + 1) rest).filter
        (fun p => decide (p.1 = 0) || decide ((p.2 - arr.getD (p.1 - 1) 0).natAbs > t))).map
        Prod.snd = keepByPrevGo t prev rest := by
  intro rest
  induction rest with
  | nil => intro n prev _; rfl
  | cons x xs ih =>
    intro n prev h
    have hprev : arr.getD n 0 = prev := by
      have := h 0
      simpa using this
    have hrec : ∀ j : Nat, arr.getD (n + 1 + j) 0 = (x :: xs).getD j 0 := by
      intro j
      have h' := h (j + 1)
      have harith : n + (j + 1) = n + 1 + j := by omega
      rw [harith] at h'
      simpa using h'
    have henum : List.enumFrom (n + 1) (x :: xs) = (n + 1, x) :: List.enumFrom (n + 1 + 1) xs :=
      rfl
    rw [henum]
    have hcond : (decide (n + 1 = 0) || decide ((x - arr.getD (n + 1 - 1) 0).natAbs > t)) =
        decide ((x - prev).natAbs > t) := by
      show (decide (n + 1 = 0) || decide ((x - arr.getD n 0).natAbs > t)) = _
      rw [hprev]
      simp
    by_cases hcase : (x - prev).natAbs > t
    · rw [List.filter_cons_of_pos (by rw [hcond]; exact decide_eq_true hcase)]
      simp only [List.map]
      rw [keepByPrevGo, if_pos hcase]
      congr 1
      exact ih (n + 1) x hrec
    · rw [List.filter_cons_of_neg (by rw [hcond]; simpa using hcase)]
      rw [keepByPrevGo, if_neg hcase]
      exact ih (n + 1) x hrec

/-- The index-based JS filter equals the previous-element recursion. -/
theorem trendFilter_eq_keepByPrev (t : Nat) (arr : List Int) :
    trendFilter t arr = keepByPrev t arr := by
  cases arr with
  | nil => rfl
  | cons a rest =>
    simp only [trendFilter, keepByPrev]
    have henum : List.enumFrom 0 (a :: rest) = (0, a) :: List.enumFrom (0 + 1) rest := rfl
    rw [henum]
    rw [List.filter_cons_of_pos (by simp)]
    simp only [List.map]
    congr 1
    exact keepByPrevGo_bridge t (a :: rest) rest 0 a (fun j => by simp)

/-! ## Dedup & rank

Both route variants post-process the scored pool with
```
const uniqueRecommendations = recommendations.filter((rec, index, self) =>
  index === self.findIndex(r =>
    r.track.title === rec.track.title &&
    r.track.artist === rec.track.artist &&
    r.track.genre === rec.track.genre));
```
(keep exactly the first occurrence of each (title, artist, genre) key), then
— only in the selected-tracks variant — drop entries whose id is a selected
id, and finally `sort((a, b) => b.score - a.score)`.  `Array.prototype.sort`
is stable (ECMAScript 2019), so the sort is modelled as a stable insertion
sort descending on score. -/

/-- The duplicate key used by the dedup step: equal title, artist and genre. -/
def sameTAG (a b : TrackMetadata) : Bool :=
  decide (a.title = b.title) && decide (a.artist = b.artist) && decide (a.genre = b.genre)

theorem sameTAG_comm (a b : TrackMetadata) : sameTAG a b = sameTAG b a := by
  simp only [sameTAG]
  by_cases h1 : a.title = b.title <;> by_cases h2 : a.artist = b.artist <;>
    by_cases h3 : a.genre = b.genre <;>
    simp [h1, h2, h3, eq_comm]

/-- Keep exactly the first occurrence of each (title, artist, genre) key —
the `filter`/`findIndex` dedup of the source. -/
def dedupByTAG : List Recommendation → List Recommendation
  | [] => []
  | r :: rs => r :: (dedupByTAG rs).filter (fun x => !sameTAG x.track r.track)

theorem dedupByTAG_pairwise (l : List Recommendation) :
    (dedupByTAG l).Pairwise (fun a b => sameTAG a.track b.track = false) := by
  induction l with
  | nil => exact List.Pairwise.nil
  | cons r rs ih =>
    rw [dedupByTAG]
    refine List.Pairwise.cons ?_ (List.Pairwise.sublist (List.filter_sublist _) ih)
    intro x hx
    have hmem := List.of_mem_filter hx
    rw [sameTAG_comm]
    simpa using hmem

/-- Stable insertion of one entry into a list sorted descending by score: the
new entry goes before the first entry it does not strictly lose to, so
already-present equal-score entries stay in front of it. -/
def insertRec (r : Recommendation) : List Recommendation → List Recommendation
  | [] => [r]
  | x :: xs => if x.score > r.score then x :: insertRec r xs else r :: x :: xs

/-- The `sort((a, b) => b.score - a.score)` step: a stable sort descending by
score. -/
def sortDesc (l : List Recommendation) : List Recommendation :=
  l.foldr insertRec []

theorem insertRec_perm (r : Recommendation) (l : List Recommendation) :
    List.Perm (insertRec r l) (r :: l) := by
  induction l with
  | nil => rfl
  | cons x xs ih =>
    rw [insertRec]
    by_cases h : x.score > r.score
    · rw [if_pos h]
      exact (ih.cons x).trans (List.Perm.swap r x xs)
    · rw [if_neg h]

theorem sortDesc_perm (l : List Recommendation) : List.Perm (sortDesc l) l := by
  induction l with
  | nil => rfl
  | cons x xs ih =>
    show List.Perm (insertRec x (sortDesc xs)) (x :: xs)
    exact (insertRec_perm x (sortDesc xs)).trans (ih.cons x)

theorem insertRec_sorted (r : Recommendation) (l : List Recommendation)
    (h : l.Pairwise (fun a b => b.score ≤ a.score)) :
    (insertRec r l).Pairwise (fun a b => b.score ≤ a.score) := by
  induction l with
  | nil => simp [insertRec]
  | cons x xs ih =>
    rw [insertRec]
    rcases List.pairwise_cons.mp h with ⟨hx, hxs⟩
    by_cases hc : x.score > r.score
    · rw [if_pos hc]
      refine List.pairwise_cons.mpr ⟨?_, ih hxs⟩
      intro y hy
      rcases List.mem_cons.mp ((insertRec_perm r xs).subset hy) with hy' | hy'
      · exact le_of_lt (hy' ▸ hc)
      · exact hx y hy'
    · rw [if_neg hc]
      refine List.pairwise_cons.mpr ⟨?_, h⟩
      intro y hy
      have hrx : x.score ≤ r.score := not_lt.mp hc
      rcases List.mem_cons.mp hy with hy' | hy'
      · exact hy' ▸ hrx
      · exact le_trans (hx y hy') hrx

theorem sortDesc_sorted (l : List Recommendation) :
    (sortDesc l).Pairwise (fun a b => b.score ≤ a.score) := by
  induction l with
  | nil => exact List.Pairwise.nil
  | cons x xs ih => exact insertRec_sorted x (sortDesc xs) ih

theorem insertRec_filter_score_eq (r : Recommendation) (l : List Recommendation) (s : Rat)
    (hr : r.score = s) :
    (insertRec r l).filter (fun x => decide (x.score = s)) =
      r :: l.filter (fun x => decide (x.score = s)) := by
  induction l with
  | nil => simp [insertRec, hr]
  | cons x xs ih =>
    rw [insertRec]
    by_cases hc : x.score > r.score
    · rw [if_pos hc]
      have hxs : ¬ x.score = s := by
        intro hxe
        exact absurd (hxe.trans hr.symm) (ne_of_gt hc)
      rw [List.filter_cons_of_neg (by simpa using hxs), ih,
        List.filter_cons_of_neg (by simpa using hxs)]
    · rw [if_neg hc]
      rw [List.filter_cons_of_pos (by simpa using hr)]

theorem insertRec_filter_score_ne (r : Recommendation) (l : List Recommendation) (s : Rat)
    (hr : ¬ r.score = s) :
    (insertRec r l).filter (fun x => decide (x.score = s)) =
      l.filter (fun x => decide (x.score = s)) := by
  induction l with
  | nil => simp [insertRec, hr]
  | cons x xs ih =>
    rw [insertRec]
    by_cases hc : x.score > r.score
    · rw [if_pos hc]
      by_cases hxs : x.score = s
      · rw [List.filter_cons_of_pos (by simpa using hxs), ih,
          List.filter_cons_of_pos (by simpa using hxs)]
      · rw [List.filter_cons_of_neg (by simpa using hxs), ih,
          List.filter_cons_of_neg (by simpa using hxs)]
    · rw [if_neg hc]
      rw [List.filter_cons_of_neg (by simpa using hr)]

/-- Stability of the sort: for each score value, the entries carrying that
score appear in the output in exactly their input order. -/
theorem sortDesc_stable (l : List Recommendation) (s : Rat) :
    (sortDesc l).filter (fun x => decide (x.score = s)) =
      l.filter (fun x => decide (x.score = s)) := by
  induction l with
  | nil => rfl
  | cons x xs ih =>
    show (insertRec x (sortDesc xs)).filter _ = _
    by_cases hx : x.score = s
    · rw [insertRec_filter_score_eq x (sortDesc xs) s hx, ih,
        List.filter_cons_of_pos (by simpa using hx)]
    · rw [insertRec_filter_score_ne x (sortDesc xs) s hx, ih,
        List.filter_cons_of_neg (by simpa using hx)]

/-- The selected-tracks variant's post-processing (`uniqueRecommendations` →
`filteredRecommendations` → sort): dedup by (title, artist, genre), drop
entries whose track id is among the selected tracks' ids, sort by score
descending. -/
def selectedTracksPipeline (selectedTracks : List SelectedTrack)
    (recommendations : List Recommendation) : List Recommendation :=
  let uniqueRecommendations := dedupByTAG recommendations
  let selectedTrackIds := selectedTracks.map (fun tr => tr.id)
  let filteredRecommendations :=
    uniqueRecommendations.filter (fun rec => !selectedTrackIds.contains rec.track.id)
  sortDesc filteredRecommendations

/-- The history variant's post-processing: dedup by (title, artist, genre)
and sort — it performs no id-based exclusion at all. -/
def historyPipeline (recommendations : List Recommendation) : List Recommendation :=
  sortDesc (dedupByTAG recommendations)

/-! ## Similarity engine

JS string primitives (`toLowerCase`, `trim`, `includes`, `split(/\s+/)`) are
modelled on the character list `s.data` so that every definition is
structurally recursive (ASCII case mapping; the titles scored here are plain
text). -/

/-- JS `s.toLowerCase()`. -/
def jsToLower (s : String) : String := String.mk (s.data.map Char.toLower)

/-- JS `s.trim()`: strip leading and trailing whitespace. -/
def jsTrim (s : String) : String :=
  String.mk (((s.data.dropWhile Char.isWhitespace).reverse.dropWhile Char.isWhitespace).reverse)

/-- Is `sub` an infix of the character list? (`true` for the empty `sub`,
matching JS `includes`.) -/
def infixCheck (sub : List Char) : List Char → Bool
  | [] => sub.isEmpty
  | c :: cs => sub.isPrefixOf (c :: cs) || infixCheck sub cs

/-- JS `s.includes(sub)`: substring containment (true when `sub` is empty). -/
def jsIncludes (s sub : String) : Bool :=
  infixCheck sub.data s.data

/-- Split a character list at every whitespace character (empty segments
included, as JS `split` with a single-char separator position). -/
def splitWsChars : List Char → List (List Char)
  | [] => [[]]
  | c :: cs =>
    let rest := splitWsChars cs
    if c.isWhitespace then [] :: rest
    else (c :: rest.headD []) :: rest.tail

/-- JS `s.split(/\s+/)` on an already-trimmed string: split on runs of
whitespace (a regex separator collapses adjacent whitespace, i.e. discards
the empty segments); on the empty string JS yields `[""]`. -/
def splitWs (s : String) : List String :=
  if s.data.isEmpty then [""]
  else ((splitWsChars s.data).filter (fun w => !w.isEmpty)).map String.mk

/-- `calculateTitleSimilarity`, token-overlap form (selected-tracks variant):
exact match → 1; substring containment either way → 0.8; otherwise
`|common words| / max(|words1|, |words2|)` with 0 when there is no common
word. -/
def calculateTitleSimilarityTok (title1 title2 : String) : Rat :=
  let s1 := jsTrim (jsToLower title1)
  let s2 := jsTrim (jsToLower title2)
  if s1 = s2 then 1
  else if jsIncludes s1 s2 || jsIncludes s2 s1 then 0.8
  else
    let words1 := splitWs s1
    let words2 := splitWs s2
    let commonWords := words1.filter (fun w => words2.contains w)
    if commonWords.length = 0 then 0
    else (commonWords.length : Rat) / ((max words1.length words2.length : Nat) : Rat)

/-- Levenshtein edit distance between two character lists.  The source
(history variant) computes it with the standard Wagner–Fischer dynamic
programming table `matrix[i][j]` over string prefixes; this is the same
recurrence written as structural recursion (equal heads → diagonal,
otherwise 1 + min of diagonal / insert / delete). -/
def lev : List Char → List Char → Nat
  | [], ys => ys.length
  | xs, [] => xs.length
  | x :: xs, y :: ys =>
    if x = y then lev xs ys
    else 1 + min (lev xs ys) (min (lev (x :: xs) ys) (lev xs (y :: ys)))
termination_by xs ys => xs.length + ys.length
decreasing_by all_goals (simp only [List.length_cons]; omega)

/-- `calculateTitleSimilarity`, Levenshtein form (history variant):
`1 - lev(s2, s1) / max(len s1, len s2)` after lowercasing and trimming, with
the source's special cases for equal and empty strings.  (The source indexes
the table as `matrix[s2.length][s1.length]`, i.e. distance from `s2` to
`s1`; the argument order is kept.) -/
def calculateTitleSimilarityLev (title1 title2 : String) : Rat :=
  let s1 := jsTrim (jsToLower title1)
  let s2 := jsTrim (jsToLower title2)
  if s1 = s2 then 1
  else if s1.data.length = 0 then (if s2.data.length = 0 then 1 else 0)
  else if s2.data.length = 0 then 0
  else 1 - (lev s2.data s1.data : Rat) / ((max s1.data.length s2.data.length : Nat) : Rat)

/-- Loop body of `calculateTrackSimilarity` for one reference track: artist
term 0.5 when either lowercased artist name contains the other; title term
`titleSimilarity × 0.3`; popularity term
`max(0, 1 − |Δpopularity|/100) × 0.2` **only when both popularities are
truthy** (present and nonzero, JS `if (track.popularity &&
selectedTrack.popularity)`). -/
def perRefSimilarity (track : TrackMetadata) (selectedTrack : SelectedTrack) : Rat :=
  let artistTerm : Rat :=
    if jsIncludes (jsToLower track.artist) (jsToLower (firstArtist selectedTrack)) ||
        jsIncludes (jsToLower (firstArtist selectedTrack)) (jsToLower track.artist)
    then 0.5 else 0
  let titleTerm : Rat := calculateTitleSimilarityTok track.title selectedTrack.name * 0.3
  let popularityTerm : Rat :=
    if truthyPop track.popularity ∧ selectedTrack.popularity ≠ 0 then
      max 0 (1 - ((track.popularity.getD 0 - selectedTrack.popularity).natAbs : Rat) / 100)
        * 0.2
    else 0
  artistTerm + titleTerm + popularityTerm

/-- `calculateTrackSimilarity` (selected-tracks variant): the running
maximum of `perRefSimilarity` over the references, starting from 0. -/
def calculateTrackSimilarity (track : TrackMetadata)
    (selectedTracks : List SelectedTrack) : Rat :=
  selectedTracks.foldl
    (fun maxSimilarity selectedTrack =>
      max maxSimilarity (perRefSimilarity track selectedTrack))
    0

/-! ## Mood resolver and mood similarity -/

/-- A mood profile: preferred genres plus an inclusive popularity range. -/
structure MoodProfile where
  preferredGenres : List String
  popularityRange : Int × Int
deriving DecidableEq

/-- The result of the JS property read `moodMappings[key]`: either one of
the table's own mood profiles, or a truthy value inherited from
`Object.prototype` (a plain object literal inherits its properties),
carrying the property name that was hit. -/
inductive MoodLookupResult where
  | profile (p : MoodProfile)
  | inherited (name : String)
deriving DecidableEq

/-- The own keys of the `moodMappings` object literal. -/
def moodTableKeys : List String := ["happy", "sad", "energetic", "calm"]

/-- The property names every plain object literal inherits from
`Object.prototype`.  All of their values are truthy (methods, and the
prototype object itself for `__proto__`), so `moodMappings[key] || fallback`
does **not** fall back on them.  Since the source lowercases the label
first, only the all-lowercase names — "constructor" and "__proto__" —
are reachable. -/
def objectProtoProps : List String :=
  ["constructor", "hasOwnProperty", "isPrototypeOf", "propertyIsEnumerable",
   "toLocaleString", "toString", "valueOf", "__defineGetter__", "__defineSetter__",
   "__lookupGetter__", "__lookupSetter__", "__proto__"]

/-- The JS property read `moodMappings[key]` including the prototype chain:
an own key yields its profile; an `Object.prototype` property name yields
the (truthy, non-profile) inherited member; anything else is `undefined`. -/
def moodMappingsGet (key : String) : Option MoodLookupResult :=
  if key = "happy" then
    some (MoodLookupResult.profile ⟨["pop", "dance", "electronic", "indie-pop"], (60, 100)⟩)
  else if key = "sad" then
    some (MoodLookupResult.profile ⟨["indie", "folk", "acoustic", "alternative"], (20, 80)⟩)
  else if key = "energetic" then
    some (MoodLookupResult.profile
      ⟨["rock", "electronic", "dance", "hip-hop", "metal"], (40, 100)⟩)
  else if key = "calm" then
    some (MoodLookupResult.profile
      ⟨["ambient", "classical", "jazz", "acoustic", "chill"], (10, 70)⟩)
  else if objectProtoProps.contains key then some (MoodLookupResult.inherited key)
  else none

/-- `getMoodPreferences`: `moodMappings[mood.toLowerCase()] ||
{ preferredGenres: [], popularityRange: [0, 100] }`.  The `||` falls back
only on the falsy `undefined`; a truthy inherited `Object.prototype` member
passes through unchanged. -/
def getMoodPreferences (mood : String) : MoodLookupResult :=
  (moodMappingsGet (jsToLower mood)).getD (MoodLookupResult.profile ⟨[], (0, 100)⟩)

/-- Genre block of `calculateMoodSimilarity`: `+0.6` when the track's genre
is among the profile's preferred genres. -/
def moodGenreTerm (track : TrackMetadata) (moodPreferences : MoodProfile) : Rat :=
  if moodPreferences.preferredGenres.contains track.genre then 0.6 else 0

/-- Popularity block of `calculateMoodSimilarity` (computed whenever
popularity is present — the source checks `!== undefined`, not truthiness):
`+0.4` inside the inclusive range, otherwise `max(0, 0.4 − distance/50)`
with `distance = min(|pop−min|, |pop−max|)`. -/
def moodPopTerm (popularity : Option Int) (range : Int × Int) : Rat :=
  match popularity with
  | none => 0
  | some pop =>
    let minPop := range.1
    let maxPop := range.2
    if minPop ≤ pop ∧ pop ≤ maxPop then (0.4 : Rat)
    else
      let distance : Nat := min (pop - minPop).natAbs (pop - maxPop).natAbs
      max 0 (0.4 - (distance : Rat) / 50)

/-- `calculateMoodSimilarity`: the sum of the two blocks above. -/
def calculateMoodSimilarity (track : TrackMetadata) (moodPreferences : MoodProfile) : Rat :=
  moodGenreTerm track moodPreferences +
    moodPopTerm track.popularity moodPreferences.popularityRange

/-! ## Context scorer (selected-tracks variant) -/

/-- Request context: optional time of day and activity labels. -/
structure Context where
  timeOfDay : Option String
  activity : Option String
deriving DecidableEq

/-- `getTimeOfDayScore`: lookup table on lowercased genre and the defaulted
popularity (`track.popularity || 50`); unknown label → 0.5. -/
def getTimeOfDayScore (track : TrackMetadata) (timeOfDay : String) : Rat :=
  let genre := jsToLower track.genre
  let popularity := jsOrI track.popularity 50
  if timeOfDay = "morning" then
    if ["pop", "dance", "electronic"].contains genre ∧ popularity > 60 then 1
    else if ["rock", "indie-pop"].contains genre ∧ popularity > 40 then 0.8
    else if ["jazz", "acoustic"].contains genre then 0.6
    else 0.3
  else if timeOfDay = "afternoon" then
    if ["pop", "indie", "alternative"].contains genre then 0.9
    else if ["rock", "electronic"].contains genre ∧ popularity > 30 then 0.7
    else if ["jazz", "acoustic", "folk"].contains genre then 0.8
    else 0.5
  else if timeOfDay = "evening" then
    if ["indie", "alternative", "acoustic"].contains genre then 1
    else if ["pop", "electronic"].contains genre ∧ popularity > 40 then 0.8
    else if ["jazz", "ambient"].contains genre then 0.9
    else if ["rock"].contains genre then 0.6
    else 0.4
  else if timeOfDay = "night" then
    if ["ambient", "chill", "electronic"].contains genre then 1
    else if ["jazz", "acoustic", "indie"].contains genre then 0.9
    else if ["dance", "electronic"].contains genre ∧ popularity > 70 then 0.8
    else if ["rock", "metal"].contains genre then 0.5
    else 0.3
  else 0.5

/-- `getActivityScore`: the activity lookup table; unknown label → 0.5. -/
def getActivityScore (track : TrackMetadata) (activity : String) : Rat :=
  let genre := jsToLower track.genre
  let popularity := jsOrI track.popularity 50
  if activity = "workout" then
    if ["rock", "electronic", "dance", "hip-hop", "metal"].contains genre then 1
    else if ["pop"].contains genre ∧ popularity > 60 then 0.8
    else if ["indie", "alternative"].contains genre ∧ popularity > 40 then 0.6
    else 0.2
  else if activity = "study" then
    if ["ambient", "classical", "jazz", "acoustic"].contains genre then 1
    else if ["indie", "folk"].contains genre then 0.8
    else if ["electronic"].contains genre ∧ popularity < 50 then 0.6
    else if ["rock", "metal", "dance"].contains genre then 0.2
    else 0.4
  else if activity = "party" then
    if ["dance", "electronic", "pop"].contains genre ∧ popularity > 60 then 1
    else if ["hip-hop", "rock"].contains genre ∧ popularity > 50 then 0.8
    else if ["indie-pop"].contains genre ∧ popularity > 40 then 0.7
    else if ["ambient", "classical", "acoustic"].contains genre then 0.1
    else 0.3
  else if activity = "relax" then
    if ["ambient", "classical", "jazz", "acoustic", "chill"].contains genre then 1
    else if ["indie", "folk"].contains genre then 0.9
    else if ["electronic"].contains genre ∧ popularity < 60 then 0.7
    else if ["rock", "metal", "dance"].contains genre then 0.2
    else 0.5
  else 0.5

/-- `calculateContextScore`: `0.6 × timeScore + 0.4 × activityScore` for the
dimensions that are present, capped at 1. -/
def calculateContextScore (track : TrackMetadata) (context : Context) : Rat :=
  let timePart : Rat :=
    match context.timeOfDay with
    | some timeOfDay => getTimeOfDayScore track timeOfDay * 0.6
    | none => 0
  let activityPart : Rat :=
    match context.activity with
    | some activity => getActivityScore track activity * 0.4
    | none => 0
  min (timePart + activityPart) 1

/-! ## Scoring engine (selected-tracks variant) -/

/-- User preferences reaching the selected-tracks scorer: just the optional
mood label. -/
structure UserPreferences where
  mood : Option String
deriving DecidableEq

/-- The popularity bonus condition of `scoreTrack`
(`if (track.popularity && track.popularity > 70) score += 1`): the JS guard
first tests truthiness, so an absent popularity and popularity 0 never earn
the bonus. -/
def popBonus (popularity : Option Int) : Rat :=
  match popularity with
  | none => 0
  | some v => if v ≠ 0 ∧ v > 70 then 1 else 0

/-- JS `Math.round(x * 100) / 100`: round to 2 decimal places, halves
towards +∞. -/
def jsRound2 (q : Rat) : Rat := (⌊q * 100 + 1 / 2⌋ : Int) / 100

/-- `scoreTrack` of the selected-tracks variant: genre match (3) against the
extracted genres when that argument was passed, track similarity (×4) when
reference tracks were passed, mood similarity (×3) when a mood label is
truthy (JS: the empty string is falsy), context score (×2) when a context
was passed, and the >70 popularity bonus (1); rounded to 2 decimals.
When the mood label resolves to an inherited `Object.prototype` member
instead of a profile, `calculateMoodSimilarity` reads `.preferredGenres` of
a non-profile and throws a `TypeError` — modelled as `none`. -/
def scoreTrack (track : TrackMetadata) (prefs : UserPreferences)
    (selectedTracks : Option (List SelectedTrack)) (extractedGenres : Option (List String))
    (context : Option Context) : Option Rat :=
  let genreScore : Rat :=
    match extractedGenres with
    | some gs => if gs.contains track.genre then 3 else 0
    | none => 0
  let similarityScore : Rat :=
    match selectedTracks with
    | some sel => if sel.length > 0 then calculateTrackSimilarity track sel * 4 else 0
    | none => 0
  let moodScore : Option Rat :=
    match prefs.mood with
    | some mood =>
      if mood ≠ "" then
        match getMoodPreferences mood with
        | MoodLookupResult.profile mp => some (calculateMoodSimilarity track mp * 3)
        | MoodLookupResult.inherited _ => none
      else some 0
    | none => some 0
  let contextScore : Rat :=
    match context with
    | some ctx => calculateContextScore track ctx * 2
    | none => 0
  match moodScore with
  | some ms =>
    some (jsRound2 (genreScore + similarityScore + ms + contextScore + popBonus track.popularity))
  | none => none

/-! ## Popularity progression (history variant) -/

/-- `isGoodPopularityTransition`: `true` when either endpoint popularity is
falsy or the trend has fewer than 2 points; otherwise compare the popularity
change against `recentTrend`, the sum of successive deltas of the *last ≤3*
trend points divided by `max(1, trend.length − 1)` (the length of the whole
trend, not of the slice). -/
def isGoodPopularityTransition (currentPopularity nextPopularity : Option Int)
    (trend : List Int) : Bool :=
  if !truthyPop currentPopularity || !truthyPop nextPopularity then true
  else if trend.length < 2 then true
  else
    let sliced := trend.drop (trend.length - 3)
    let deltaSum : Int := (sliced.zip sliced.tail).foldl (fun sum pc => sum + (pc.2 - pc.1)) 0
    let recentTrend : Rat := (deltaSum : Rat) / ((max 1 (trend.length - 1) : Nat) : Rat)
    let popularityChange : Rat :=
      ((nextPopularity.getD 0 - currentPopularity.getD 0 : Int) : Rat)
    decide (|popularityChange - recentTrend| < 20)

/-! ## Evaluation metrics (identical in both variants) -/

/-- `calculateGenreCoherence`: 1 for fewer than 2 entries, else the number
of distinct genres over the total count (`new Set(genres).size /
genres.length`). -/
def calculateGenreCoherence (recommendations : List Recommendation) : Rat :=
  if recommendations.length < 2 then 1
  else
    let genres := recommendations.map (fun r => r.track.genre)
    ((genres.dedup.length : Nat) : Rat) / ((genres.length : Nat) : Rat)

/-- `calculatePopularitySmoothness`: 1 for fewer than 2 entries or fewer
than 2 present popularities, else `max(0, 1 − avgVariation/50)` where
`avgVariation` is the mean absolute successive difference of the present
popularities. -/
def calculatePopularitySmoothness (recommendations : List Recommendation) : Rat :=
  if recommendations.length < 2 then 1
  else
    let popularities := recommendations.filterMap (fun r => r.track.popularity)
    if popularities.length < 2 then 1
    else
      let totalVariation : Nat :=
        ((popularities.zip popularities.tail).map (fun pc => (pc.2 - pc.1).natAbs)).sum
      let avgVariation : Rat := (totalVariation : Rat) / (((popularities.length - 1 : Nat)) : Rat)
      max 0 (1 - avgVariation / 50)

/-- `calculateGenreConsistency`: textually identical to
`calculateGenreCoherence` in the source. -/
def calculateGenreConsistency (recommendations : List Recommendation) : Rat :=
  if recommendations.length < 2 then 1
  else
    let genres := recommendations.map (fun r => r.track.genre)
    ((genres.dedup.length : Nat) : Rat) / ((genres.length : Nat) : Rat)

/-! ## Levenshtein similarity: basic properties -/

theorem lev_nil_left (ys : List Char) : lev [] ys = ys.length := by
  rw [lev]

theorem lev_nil_right (xs : List Char) : lev xs [] = xs.length := by
  cases xs with
  | nil => rw [lev]
  | cons x xs => rw [lev]; simp

theorem lev_cons_cons (x y : Char) (xs ys : List Char) :
    lev (x :: xs) (y :: ys) =
      if x = y then lev xs ys
      else 1 + min (lev xs ys) (min (lev (x :: xs) ys) (lev xs (y :: ys))) := by
  rw [lev]

theorem lev_symm (xs ys : List Char) : lev xs ys = lev ys xs := by
  induction xs, ys using lev.induct with
  | case1 ys => rw [lev_nil_left, lev_nil_right]
  | case2 xs _ => rw [lev_nil_right, lev_nil_left]
  | case3 xs y ys ih => rw [lev_cons_cons, lev_cons_cons, if_pos rfl, if_pos rfl, ih]
  | case4 x xs y ys hne ih1 ih2 ih3 =>
    rw [lev_cons_cons, lev_cons_cons, if_neg hne, if_neg (fun hh => hne hh.symm),
      ih1, ih2, ih3]
    omega

theorem lev_le_max (xs ys : List Char) : lev xs ys ≤ max xs.length ys.length := by
  induction xs, ys using lev.induct with
  | case1 ys => rw [lev_nil_left]; simp
  | case2 xs _ => rw [lev_nil_right]; simp
  | case3 xs y ys ih =>
    rw [lev_cons_cons, if_pos rfl]
    simp only [List.length_cons]
    omega
  | case4 x xs y ys hne ih1 ih2 ih3 =>
    rw [lev_cons_cons, if_neg hne]
    have hmin : min (lev xs ys) (min (lev (x :: xs) ys) (lev xs (y :: ys))) ≤ lev xs ys :=
      min_le_left _ _
    simp only [List.length_cons]
    omega

/-! ## Bounds for the similarity functions -/

theorem titleSimTok_self (a : String) : calculateTitleSimilarityTok a a = 1 := by
  simp [calculateTitleSimilarityTok]

theorem titleSimTok_nonneg (a b : String) : 0 ≤ calculateTitleSimilarityTok a b := by
  simp only [calculateTitleSimilarityTok]
  repeat' split
  · norm_num
  · norm_num
  · norm_num
  · positivity

theorem titleSimTok_le_one (a b : String) : calculateTitleSimilarityTok a b ≤ 1 := by
  simp only [calculateTitleSimilarityTok]
  split
  · norm_num
  split
  · norm_num
  split
  · norm_num
  next hcommon =>
    set w1 := splitWs (jsTrim (jsToLower a)) with hw1
    set w2 := splitWs (jsTrim (jsToLower b)) with hw2
    set common := w1.filter (fun w => w2.contains w) with hcomm
    have hle : common.length ≤ max w1.length w2.length :=
      le_trans (List.length_filter_le _ _) (le_max_left _ _)
    have hpos : 0 < max w1.length w2.length := by
      rcases Nat.eq_zero_or_pos (max w1.length w2.length) with hz | hp
      · exfalso
        apply hcommon
        omega
      · exact hp
    rw [div_le_one (by exact_mod_cast hpos)]
    exact_mod_cast hle

theorem titleSimLev_self (a : String) : calculateTitleSimilarityLev a a = 1 := by
  simp [calculateTitleSimilarityLev]

theorem titleSimLev_symm (a b : String) :
    calculateTitleSimilarityLev a b = calculateTitleSimilarityLev b a := by
  simp only [calculateTitleSimilarityLev]
  generalize jsTrim (jsToLower a) = s1
  generalize jsTrim (jsToLower b) = s2
  by_cases h12 : s1 = s2
  · rw [if_pos h12, if_pos h12.symm]
  have h21 : ¬ s2 = s1 := fun hh => h12 hh.symm
  rw [if_neg h12, if_neg h21]
  by_cases h1 : s1.data.length = 0 <;> by_cases h2 : s2.data.length = 0
  · exfalso
    apply h12
    obtain ⟨d1⟩ := s1
    obtain ⟨d2⟩ := s2
    have hd1 : d1 = [] := by simpa using h1
    have hd2 : d2 = [] := by simpa using h2
    rw [hd1, hd2]
  · rw [if_pos h1, if_neg h2, if_neg h2, if_pos h1]
  · rw [if_neg h1, if_pos h2, if_pos h2, if_neg h1]
  · rw [if_neg h1, if_neg h2, if_neg h2, if_neg h1, lev_symm, Nat.max_comm]

theorem titleSimLev_nonneg (a b : String) : 0 ≤ calculateTitleSimilarityLev a b := by
  simp only [calculateTitleSimilarityLev]
  generalize jsTrim (jsToLower a) = s1
  generalize jsTrim (jsToLower b) = s2
  by_cases h12 : s1 = s2
  · rw [if_pos h12]; norm_num
  rw [if_neg h12]
  by_cases h1 : s1.data.length = 0
  · rw [if_pos h1]; split <;> norm_num
  rw [if_neg h1]
  by_cases h2 : s2.data.length = 0
  · rw [if_pos h2]
  rw [if_neg h2]
  have hmaxpos : 0 < max s1.data.length s2.data.length := by omega
  have hlev := lev_le_max s2.data s1.data
  have hdiv : (lev s2.data s1.data : Rat) /
      ((max s1.data.length s2.data.length : Nat) : Rat) ≤ 1 := by
    rw [div_le_one (by exact_mod_cast hmaxpos)]
    exact_mod_cast (by omega : lev s2.data s1.data ≤ max s1.data.length s2.data.length)
  linarith

theorem titleSimLev_le_one (a b : String) : calculateTitleSimilarityLev a b ≤ 1 := by
  simp only [calculateTitleSimilarityLev]
  generalize jsTrim (jsToLower a) = s1
  generalize jsTrim (jsToLower b) = s2
  by_cases h12 : s1 = s2
  · rw [if_pos h12]
  rw [if_neg h12]
  by_cases h1 : s1.data.length = 0
  · rw [if_pos h1]; split <;> norm_num
  rw [if_neg h1]
  by_cases h2 : s2.data.length = 0
  · rw [if_pos h2]; norm_num
  rw [if_neg h2]
  have hdiv : (0 : Rat) ≤ (lev s2.data s1.data : Rat) /
      ((max s1.data.length s2.data.length : Nat) : Rat) := by positivity
  linarith

theorem perRefSimilarity_nonneg (track : TrackMetadata) (st : SelectedTrack) :
    0 ≤ perRefSimilarity track st := by
  have ht := titleSimTok_nonneg track.title st.name
  have hmax : (0 : Rat) ≤
      max 0 (1 - ((track.popularity.getD 0 - st.popularity).natAbs : Rat) / 100) :=
    le_max_left _ _
  simp only [perRefSimilarity]
  split <;> split <;> linarith

theorem perRefSimilarity_le_one (track : TrackMetadata) (st : SelectedTrack) :
    perRefSimilarity track st ≤ 1 := by
  have ht := titleSimTok_le_one track.title st.name
  have ht0 := titleSimTok_nonneg track.title st.name
  have hd : (0 : Rat) ≤ ((track.popularity.getD 0 - st.popularity).natAbs : Rat) / 100 := by
    positivity
  have hmax : max (0 : Rat)
      (1 - ((track.popularity.getD 0 - st.popularity).natAbs : Rat) / 100) ≤ 1 := by
    rw [max_le_iff]
    constructor <;> linarith
  simp only [perRefSimilarity]
  split <;> split <;> linarith

theorem foldl_max_le (l : List Rat) (b : Rat) (hl : ∀ x ∈ l, x ≤ b) :
    ∀ acc : Rat, acc ≤ b → l.foldl max acc ≤ b := by
  induction l with
  | nil => intro acc hacc; exact hacc
  | cons x xs ih =>
    intro acc hacc
    exact ih (fun y hy => hl y (List.mem_cons_of_mem x hy))
      (max acc x) (max_le hacc (hl x (List.mem_cons_self x xs)))

theorem le_foldl_max (l : List Rat) : ∀ acc : Rat, acc ≤ l.foldl max acc := by
  induction l with
  | nil => intro acc; exact le_refl acc
  | cons x xs ih =>
    intro acc
    exact le_trans (le_max_left acc x) (ih (max acc x))

theorem foldr_max_shift (xs : List Rat) : ∀ a x : Rat,
    xs.foldr max (max a x) = max x (xs.foldr max a) := by
  induction xs with
  | nil => intro a x; exact max_comm a x
  | cons y ys ih =>
    intro a x
    show max y (ys.foldr max (max a x)) = max x (max y (ys.foldr max a))
    rw [ih a x, ← max_assoc, max_comm y x, max_assoc]

theorem foldl_max_eq_foldr_max (xs : List Rat) : ∀ a : Rat,
    xs.foldl max a = xs.foldr max a := by
  induction xs with
  | nil => intro a; rfl
  | cons x l ih =>
    intro a
    show l.foldl max (max a x) = max x (l.foldr max a)
    rw [ih (max a x), foldr_max_shift]

theorem calculateTrackSimilarity_eq_foldr (track : TrackMetadata)
    (selectedTracks : List SelectedTrack) :
    calculateTrackSimilarity track selectedTracks =
      (selectedTracks.map (perRefSimilarity track)).foldr max 0 := by
  rw [calculateTrackSimilarity, ← List.foldl_map, foldl_max_eq_foldr_max]

/-! ## Mood term bounds -/

theorem max_zero_sub_le_one {x : Rat} (hx : 0 ≤ x) : max 0 (1 - x) ≤ 1 := by
  rw [max_le_iff]
  constructor <;> linarith

theorem moodGenreTerm_bounds (track : TrackMetadata) (mp : MoodProfile) :
    0 ≤ moodGenreTerm track mp ∧ moodGenreTerm track mp ≤ 0.6 := by
  simp only [moodGenreTerm]
  split <;> norm_num

theorem moodPopTerm_bounds (popularity : Option Int) (range : Int × Int) :
    0 ≤ moodPopTerm popularity range ∧ moodPopTerm popularity range ≤ 0.4 := by
  rcases popularity with _ | pop
  · simp only [moodPopTerm]
    norm_num
  simp only [moodPopTerm]
  split
  · norm_num
  have hd : (0 : Rat) ≤
      ((min (pop - range.1).natAbs (pop - range.2).natAbs : Nat) : Rat) / 50 := by
    positivity
  constructor
  · exact le_max_left _ _
  · rw [max_le_iff]
    constructor <;> linarith

/-! ## Fold helpers for the trend-slope computation -/

theorem foldl_add_deltas (l : List (Int × Int)) :
    ∀ acc : Int, l.foldl (fun sum pc => sum + (pc.2 - pc.1)) acc =
      acc + (l.map (fun pc => pc.2 - pc.1)).sum := by
  induction l with
  | nil => intro acc; simp
  | cons p ps ih =>
    intro acc
    show ps.foldl _ (acc + (p.2 - p.1)) = _
    rw [ih]
    simp only [List.map_cons, List.sum_cons]
    ring

theorem map_zip_deltas (s : List Int) : ∀ t : List Int,
    (s.zip t).map (fun pc => pc.2 - pc.1) = s.zipWith (fun a b => b - a) t := by
  induction s with
  | nil => intro t; simp
  | cons x xs ih =>
    intro t
    cases t with
    | nil => simp
    | cons y ys => simp [ih]

/-! ## Claim-side reference definitions

The two definitions below are *not* taken from the source: they transcribe
the specification's wording, to be compared against the functions derived
from the source. -/

/-- Worker for `specKeepByLastKept`: `lastKept` is the last point that was
kept so far (it is updated only when a point is kept). -/
def specKeepByLastKeptGo (t : Nat) (lastKept : Int) : List Int → List Int
  | [] => []
  | x :: xs =>
    if (x - lastKept).natAbs > t then x :: specKeepByLastKeptGo t x xs
    else specKeepByLastKeptGo t lastKept xs

/-- Modelled from the spec: "keep a point only if it differs from the last
*kept* point by more than 10 (popularity) / 2 years (year); always keep the
first point". -/
def specKeepByLastKept (t : Nat) : List Int → List Int
  | [] => []
  | a :: rest => a :: specKeepByLastKeptGo t a rest

/-- Modelled from the spec: "the recent-trend-slope equals the mean of the
successive deltas of the last at-most-3 kept popularityTrend points". -/
def specRecentTrendSlope (trend : List Int) : Rat :=
  let sliced := trend.drop (trend.length - 3)
  let deltaSum : Int := (sliced.zipWith (fun a b => b - a) sliced.tail).sum
  (deltaSum : Rat) / ((sliced.length - 1 : Nat) : Rat)

/-- Modelled from the spec: the per-reference track-similarity sum with an
*unconditional* popularity term `0.2 × max(0, 1 − |Δpopularity|/100)`. -/
def specPerRefSimilarity (track : TrackMetadata) (st : SelectedTrack) : Rat :=
  (if jsIncludes (jsToLower track.artist) (jsToLower (firstArtist st)) ||
      jsIncludes (jsToLower (firstArtist st)) (jsToLower track.artist)
    then (0.5 : Rat) else 0) +
  0.3 * calculateTitleSimilarityTok track.title st.name +
  0.2 * max 0 (1 - ((track.popularity.getD 0 - st.popularity).natAbs : Rat) / 100)

/-- Modelled from the spec: "take the maximum over all references". -/
def specTrackSimilarity (track : TrackMetadata) (selectedTracks : List SelectedTrack) : Rat :=
  (selectedTracks.map (specPerRefSimilarity track)).foldr max 0

/-! ## Concrete inputs used by counterexamples and witnesses -/

/-- A helper to build a track record with the given popularity. -/
def mkTrack (id : String) (pop : Option Int) : TrackMetadata :=
  ⟨id, "title " ++ id, "artist " ++ id, "genre " ++ id, pop, none, none⟩

/-- C1 input: one selected track, unrelated to the candidates. -/
def selC1 : List SelectedTrack := [⟨"sid", "Sel", ["SelArtist"], "alb", 10⟩]

/-- C1 input: two scored candidates sharing (title, artist) but not genre. -/
def recsC1 : List Recommendation :=
  [⟨⟨"id1", "T", "A", "pop", some 5, none, none⟩, 3⟩,
   ⟨⟨"id2", "T", "A", "rock", some 5, none, none⟩, 2⟩]

/-- C1 input for the history variant: a scored candidate whose id `hid` is
also an id of the listening history. -/
def recsC1h : List Recommendation := [⟨⟨"hid", "H", "B", "pop", some 5, none, none⟩, 1⟩]

/-- C2 input: popularities 50, 58, 45. -/
def tracksC2 : List TrackMetadata :=
  [mkTrack "1" (some 50), mkTrack "2" (some 58), mkTrack "3" (some 45)]

/-- C3 input: history with popularities 1, 20, 40, 60 (all kept by the
trend filter). -/
def historyC3 : List TrackMetadata :=
  [mkTrack "1" (some 1), mkTrack "2" (some 20), mkTrack "3" (some 40),
   mkTrack "4" (some 60)]

/-- C5 input: a candidate whose popularity is 0. -/
def trackC5 : TrackMetadata := ⟨"id", "b", "a", "g", some 0, none, none⟩

/-- C5 input: one reference track with popularity 80, sharing nothing with
the candidate. -/
def selC5 : List SelectedTrack := [⟨"sid", "y", ["x"], "al", 80⟩]

/-- C9 input: five recommendations with genres pop, pop, rock, pop, jazz. -/
def recsC9 : List Recommendation :=
  [⟨⟨"a", "ta", "aa", "pop", some 10, none, none⟩, 1⟩,
   ⟨⟨"b", "tb", "ab", "pop", some 20, none, none⟩, 2⟩,
   ⟨⟨"c", "tc", "ac", "rock", some 30, none, none⟩, 3⟩,
   ⟨⟨"d", "td", "ad", "pop", some 40, none, none⟩, 4⟩,
   ⟨⟨"e", "te", "ae", "jazz", some 50, none, none⟩, 5⟩]

/-! ## Claim theorems -/

/-- C1, counterexample. The dedup key is the (title, artist, genre)
*triple*, so two entries sharing (title, artist) but with different genres
both survive the selected-tracks pipeline; and the history pipeline performs
no id-based exclusion, so a recommendation whose id (`"hid"`) also occurs in
the listening history stays in the final list. -/
theorem C1_counterexample :
    (¬ (selectedTracksPipeline selC1 recsC1).Pairwise
        (fun a b => ¬(a.track.title = b.track.title ∧ a.track.artist = b.track.artist))) ∧
    (historyPipeline recsC1h).map (fun r => r.track.id) = ["hid"] := by
  constructor
  · decide
  · decide

/-- C1, amended: the selected-tracks pipeline output contains no id of a
selected track, and both pipelines' outputs contain no two entries with the
same (title, artist, genre) triple. -/
theorem C1_amended (selectedTracks : List SelectedTrack)
    (recommendations : List Recommendation) :
    ((selectedTracksPipeline selectedTracks recommendations).all
      (fun r => !(selectedTracks.map (fun tr => tr.id)).contains r.track.id)) = true ∧
    (selectedTracksPipeline selectedTracks recommendations).Pairwise
      (fun a b => sameTAG a.track b.track = false) ∧
    (historyPipeline recommendations).Pairwise
      (fun a b => sameTAG a.track b.track = false) := by
  refine ⟨?_, ?_, ?_⟩
  · rw [List.all_eq_true]
    intro r hr
    have hr' : r ∈ (dedupByTAG recommendations).filter
        (fun rec => !(selectedTracks.map (fun tr => tr.id)).contains rec.track.id) :=
      (sortDesc_perm _).subset hr
    exact (List.mem_filter.mp hr').2
  · exact ((sortDesc_perm _).pairwise_iff
        (fun hab => by rw [sameTAG_comm]; exact hab)).mpr
      (List.Pairwise.sublist (List.filter_sublist _) (dedupByTAG_pairwise recommendations))
  · exact ((sortDesc_perm _).pairwise_iff
        (fun hab => by rw [sameTAG_comm]; exact hab)).mpr
      (dedupByTAG_pairwise recommendations)

/-- C2, counterexample. On popularities 50, 58, 45 the computed trend is
[50, 45], while the claim's last-*kept*-point filter yields [50]: the point
45 was kept although it differs from the last kept point (50) by only 5 —
the code's filter compares with the previous *input* point (58). -/
theorem C2_counterexample :
    calculatePopularityTrend tracksC2 = [50, 45] ∧
    specKeepByLastKept 10 (tracksC2.map fun tr => jsOrI tr.popularity 50) = [50] ∧
    calculatePopularityTrend tracksC2 ≠
      specKeepByLastKept 10 (tracksC2.map fun tr => jsOrI tr.popularity 50) := by
  refine ⟨by decide, by decide, by decide⟩

/-- C2, amended: both trend filters keep the first point and keep a later
point iff it differs from the *immediately preceding input point* (kept or
dropped) by more than 10 (popularity) resp. 2 (release year). -/
theorem C2_amended (tracks : List TrackMetadata) (currentYear : Int) :
    calculatePopularityTrend tracks =
      keepByPrev 10 (tracks.map fun tr => jsOrI tr.popularity 50) ∧
    calculateReleaseYearTrend currentYear tracks =
      keepByPrev 2 (tracks.map fun tr => jsOrI tr.releaseYear currentYear) :=
  ⟨trendFilter_eq_keepByPrev 10 _, trendFilter_eq_keepByPrev 2 _⟩

/-- C4: both pipelines return a list sorted non-increasingly by score, and
the sort is stable — for every score value, the entries carrying it appear
in the same order as in the sort's input (the discovery-ordered deduped
pool). -/
theorem C4_sorted_and_stable (selectedTracks : List SelectedTrack)
    (recommendations : List Recommendation) (l : List Recommendation) (s : Rat) :
    (selectedTracksPipeline selectedTracks recommendations).Pairwise
      (fun a b => b.score ≤ a.score) ∧
    (historyPipeline recommendations).Pairwise (fun a b => b.score ≤ a.score) ∧
    (sortDesc l).filter (fun x => decide (x.score = s)) =
      l.filter (fun x => decide (x.score = s)) :=
  ⟨sortDesc_sorted _, sortDesc_sorted _, sortDesc_stable l s⟩

/-- C6, counterexample. The token-overlap form is not symmetric: on titles
"a a" and "a b" it returns 1 in one direction (both words of "a a" occur in
"a b") and 1/2 in the other. -/
theorem C6_counterexample :
    calculateTitleSimilarityTok "a a" "a b" = 1 ∧
    calculateTitleSimilarityTok "a b" "a a" = 1/2 := by
  constructor
  · decide
  · decide

/-- C6, amended: the Levenshtein form satisfies identity, [0,1] bounds and
symmetry; the token-overlap form satisfies identity and [0,1] bounds but is
not symmetric in general. -/
theorem C6_amended (a b : String) :
    calculateTitleSimilarityLev a a = 1 ∧
    0 ≤ calculateTitleSimilarityLev a b ∧
    calculateTitleSimilarityLev a b ≤ 1 ∧
    calculateTitleSimilarityLev a b = calculateTitleSimilarityLev b a ∧
    calculateTitleSimilarityTok a a = 1 ∧
    0 ≤ calculateTitleSimilarityTok a b ∧
    calculateTitleSimilarityTok a b ≤ 1 :=
  ⟨titleSimLev_self a, titleSimLev_nonneg a b, titleSimLev_le_one a b, titleSimLev_symm a b,
   titleSimTok_self a, titleSimTok_nonneg a b, titleSimTok_le_one a b⟩

/-- C3, counterexample. History with popularities 1, 20, 40, 60: the kept
trend is [1, 20, 40, 60]; the code divides the slice's delta sum (40) by
`max(1, 4−1) = 3`, not by the 2 deltas of the slice. For a candidate with
popularity 94 after the last track (60), Δ = 34: the claim's slope is
40/2 = 20 and |34 − 20| = 14 < 20, so the claim awards the bonus — but the
code computes |34 − 40/3| = 62/3 ≥ 20 and withholds it. -/
theorem C3_counterexample :
    isGoodPopularityTransition (some 60) (some 94) (calculatePopularityTrend historyC3)
      = false ∧
    |((94 - 60 : Int) : Rat) - specRecentTrendSlope (calculatePopularityTrend historyC3)|
      < 20 := by
  refine ⟨by decide, by decide⟩

/-- C3, amended: with both popularities truthy and at least 2 kept trend
points, the bonus is awarded exactly when
`|Δpopularity − (sum of successive deltas of the last ≤3 kept points) /
(trendLength − 1)| < 20` — the divisor is the length of the *whole* kept
trend minus one.  (With a falsy endpoint popularity or fewer than 2 trend
points the bonus is awarded unconditionally.) -/
theorem C3_amended (c n : Int) (trend : List Int) (hc : c ≠ 0) (hn : n ≠ 0)
    (h2 : 2 ≤ trend.length) :
    (isGoodPopularityTransition (some c) (some n) trend = true ↔
      |((n - c : Int) : Rat) -
        ((((trend.drop (trend.length - 3)).zipWith (fun a b => b - a)
            (trend.drop (trend.length - 3)).tail).sum : Int) : Rat) /
          (((trend.length - 1 : Nat)) : Rat)| < 20) := by
  have hnotlt : ¬ trend.length < 2 := by omega
  have hmax : max 1 (trend.length - 1) = trend.length - 1 := by omega
  have hsum : ((trend.drop (trend.length - 3)).zip
        (trend.drop (trend.length - 3)).tail).foldl
        (fun sum pc => sum + (pc.2 - pc.1)) 0 =
      ((trend.drop (trend.length - 3)).zipWith (fun a b => b - a)
        (trend.drop (trend.length - 3)).tail).sum := by
    rw [foldl_add_deltas, map_zip_deltas]
    ring
  have hcb : decide (c ≠ 0) = true := decide_eq_true hc
  have hnb : decide (n ≠ 0) = true := decide_eq_true hn
  simp only [isGoodPopularityTransition, truthyPop, hcb, hnb, hnotlt, hsum, hmax,
    Option.getD_some, Bool.not_true, Bool.or_self, Bool.false_eq_true,
    if_false, decide_eq_true_eq]

/-- Witness for C3's amended theorem at c = 60, n = 50, trend = [1, 20]. -/
theorem C3_amended_witness :
    isGoodPopularityTransition (some 60) (some 50) [1, 20] = true ↔
      |((50 - 60 : Int) : Rat) -
        ((((([1, 20] : List Int).drop (([1, 20] : List Int).length - 3)).zipWith
            (fun a b => b - a)
            (([1, 20] : List Int).drop (([1, 20] : List Int).length - 3)).tail).sum : Int) :
              Rat) /
          (((([1, 20] : List Int).length - 1 : Nat)) : Rat)| < 20 :=
  C3_amended 60 50 [1, 20] (by decide) (by decide) (by decide)

/-- C5, counterexample. The candidate has popularity 0 (a JS-falsy value),
so the code's popularity term is skipped and the track similarity is 0; the
claim's formula with its unconditional popularity term
`0.2 × max(0, 1 − |0 − 80|/100)` yields 1/25. -/
theorem C5_counterexample :
    calculateTrackSimilarity trackC5 selC5 = 0 ∧
    specTrackSimilarity trackC5 selC5 = 1/25 ∧
    calculateTrackSimilarity trackC5 selC5 ≠ specTrackSimilarity trackC5 selC5 := by
  refine ⟨by decide, by decide, by decide⟩

/-- C5, amended: the track-similarity score is the maximum over all
references of the per-reference sum (artist term + 0.3·title term +
popularity term, the latter only when both popularities are present and
nonzero), and it lies in [0, 1]. -/
theorem C5_amended (track : TrackMetadata) (selectedTracks : List SelectedTrack) :
    calculateTrackSimilarity track selectedTracks =
      (selectedTracks.map (perRefSimilarity track)).foldr max 0 ∧
    0 ≤ calculateTrackSimilarity track selectedTracks ∧
    calculateTrackSimilarity track selectedTracks ≤ 1 := by
  have hmap : calculateTrackSimilarity track selectedTracks =
      (selectedTracks.map (perRefSimilarity track)).foldl max 0 := by
    rw [calculateTrackSimilarity, List.foldl_map]
  refine ⟨calculateTrackSimilarity_eq_foldr track selectedTracks, ?_, ?_⟩
  · rw [hmap]
    exact le_foldl_max _ 0
  · rw [hmap]
    refine foldl_max_le _ 1 ?_ 0 (by norm_num)
    intro x hx
    rcases List.mem_map.mp hx with ⟨st, _, rfl⟩
    exact perRefSimilarity_le_one track st

/-- C7: mood similarity is the genre term plus the popularity term, lies in
[0, 1], and a candidate with popularity 85 against range [60, 100] (and a
genre outside the profile) receives exactly the 0.4 popularity term. -/
theorem C7_moodSimilarity (track : TrackMetadata) (mp : MoodProfile) :
    calculateMoodSimilarity track mp =
      moodGenreTerm track mp + moodPopTerm track.popularity mp.popularityRange ∧
    0 ≤ calculateMoodSimilarity track mp ∧
    calculateMoodSimilarity track mp ≤ 1 ∧
    calculateMoodSimilarity ⟨"id", "t", "a", "g", some 85, none, none⟩
      ⟨[], (60, 100)⟩ = 0.4 := by
  obtain ⟨hg0, hg6⟩ := moodGenreTerm_bounds track mp
  obtain ⟨hp0, hp4⟩ := moodPopTerm_bounds track.popularity mp.popularityRange
  refine ⟨rfl, ?_, ?_, by decide⟩
  · simp only [calculateMoodSimilarity]
    linarith
  · simp only [calculateMoodSimilarity]
    linarith

/-- C8, counterexample. `moodMappings[key]` is a JS prototype-chain lookup:
the lowercased labels "constructor" and "__proto__" hit truthy inherited
`Object.prototype` members, bypass the `||` fallback, and return a value
that is not a mood profile — so a label absent from the mood table does
*not* always yield the neutral profile, and the resolver is not free of
error cases (downstream `.preferredGenres.includes` throws). -/
theorem C8_counterexample :
    getMoodPreferences "Constructor" = MoodLookupResult.inherited "constructor" ∧
    getMoodPreferences "constructor" ≠ MoodLookupResult.profile ⟨[], (0, 100)⟩ ∧
    getMoodPreferences "__proto__" = MoodLookupResult.inherited "__proto__" := by
  refine ⟨by decide, by decide, by decide⟩

/-- C8, amended: the mood resolver is a case-insensitive lookup whose table
contains the four entries happy, sad, energetic, calm; a label whose
lowercasing is neither a table key nor an `Object.prototype` property name
yields the neutral profile (so "unknown-mood" does); but a label whose
lowercasing is an `Object.prototype` property name returns the truthy
inherited member instead of a profile — an error case, not the neutral
fallback. -/
theorem C8_amended :
    getMoodPreferences "unknown-mood" = MoodLookupResult.profile ⟨[], (0, 100)⟩ ∧
    getMoodPreferences "happy" =
      MoodLookupResult.profile ⟨["pop", "dance", "electronic", "indie-pop"], (60, 100)⟩ ∧
    getMoodPreferences "sad" =
      MoodLookupResult.profile ⟨["indie", "folk", "acoustic", "alternative"], (20, 80)⟩ ∧
    getMoodPreferences "energetic" =
      MoodLookupResult.profile ⟨["rock", "electronic", "dance", "hip-hop", "metal"], (40, 100)⟩ ∧
    getMoodPreferences "calm" =
      MoodLookupResult.profile ⟨["ambient", "classical", "jazz", "acoustic", "chill"], (10, 70)⟩ ∧
    (∀ m₁ m₂ : String, jsToLower m₁ = jsToLower m₂ →
      getMoodPreferences m₁ = getMoodPreferences m₂) ∧
    (∀ m : String, jsToLower m ∉ moodTableKeys →
      objectProtoProps.contains (jsToLower m) = false →
      getMoodPreferences m = MoodLookupResult.profile ⟨[], (0, 100)⟩) := by
  refine ⟨by decide, by decide, by decide, by decide, by decide, ?_, ?_⟩
  · intro m₁ m₂ h
    simp only [getMoodPreferences, h]
  · intro m h1 h2
    have e1 : ¬ jsToLower m = "happy" := fun h => h1 (by rw [h]; decide)
    have e2 : ¬ jsToLower m = "sad" := fun h => h1 (by rw [h]; decide)
    have e3 : ¬ jsToLower m = "energetic" := fun h => h1 (by rw [h]; decide)
    have e4 : ¬ jsToLower m = "calm" := fun h => h1 (by rw [h]; decide)
    have h2' : jsToLower m ∉ objectProtoProps := by simpa using h2
    have hnone : moodMappingsGet (jsToLower m) = none := by
      simp only [moodMappingsGet, if_neg e1, if_neg e2, if_neg e3, if_neg e4]
      simp [h2']
    simp [getMoodPreferences, hnone]

/-- Witness for C8's amended theorem: case-insensitivity at
"HaPPy"/"happy", and the neutral fallback at "unknown-mood". -/
theorem C8_amended_witness :
    getMoodPreferences "HaPPy" = getMoodPreferences "happy" ∧
    getMoodPreferences "unknown-mood" = MoodLookupResult.profile ⟨[], (0, 100)⟩ :=
  ⟨C8_amended.2.2.2.2.2.1 "HaPPy" "happy" (by decide),
   C8_amended.2.2.2.2.2.2 "unknown-mood" (by decide) (by decide)⟩

/-- C9: each evaluation metric lies in [0, 1]; all three are 1 when the
list has fewer than 2 entries; genreConsistency is the diversity ratio
(distinct genre count over total count) for lists of length ≥ 2; and on
genres pop, pop, rock, pop, jazz it equals 3/5. -/
theorem C9_metrics (recommendations : List Recommendation) :
    (0 ≤ calculateGenreCoherence recommendations ∧
      calculateGenreCoherence recommendations ≤ 1) ∧
    (0 ≤ calculatePopularitySmoothness recommendations ∧
      calculatePopularitySmoothness recommendations ≤ 1) ∧
    (0 ≤ calculateGenreConsistency recommendations ∧
      calculateGenreConsistency recommendations ≤ 1) ∧
    (recommendations.length < 2 →
      calculateGenreCoherence recommendations = 1 ∧
      calculatePopularitySmoothness recommendations = 1 ∧
      calculateGenreConsistency recommendations = 1) ∧
    (2 ≤ recommendations.length →
      calculateGenreConsistency recommendations =
        (((recommendations.map (fun r => r.track.genre)).dedup.length : Nat) : Rat) /
          ((recommendations.length : Nat) : Rat)) ∧
    calculateGenreConsistency recsC9 = 3/5 := by
  have hratio : ∀ h2 : 2 ≤ recommendations.length,
      0 ≤ (((recommendations.map (fun r => r.track.genre)).dedup.length : Nat) : Rat) /
          (((recommendations.map (fun r => r.track.genre)).length : Nat) : Rat) ∧
      (((recommendations.map (fun r => r.track.genre)).dedup.length : Nat) : Rat) /
          (((recommendations.map (fun r => r.track.genre)).length : Nat) : Rat) ≤ 1 := by
    intro h2
    have hdl : (recommendations.map (fun r => r.track.genre)).dedup.length ≤
        (recommendations.map (fun r => r.track.genre)).length :=
      List.Sublist.length_le (List.dedup_sublist _)
    have hpos : 0 < (recommendations.map (fun r => r.track.genre)).length := by
      rw [List.length_map]
      omega
    constructor
    · positivity
    · rw [div_le_one (by exact_mod_cast hpos)]
      exact_mod_cast hdl
  refine ⟨?_, ?_, ?_, ?_, ?_, by decide⟩
  · simp only [calculateGenreCoherence]
    split
    · norm_num
    next hlen => exact hratio (by omega)
  · simp only [calculatePopularitySmoothness]
    split
    · norm_num
    split
    · norm_num
    constructor
    · exact le_max_left _ _
    · exact max_zero_sub_le_one (by positivity)
  · simp only [calculateGenreConsistency]
    split
    · norm_num
    next hlen => exact hratio (by omega)
  · intro hlt
    refine ⟨?_, ?_, ?_⟩
    · simp only [calculateGenreCoherence]
      rw [if_pos hlt]
    · simp only [calculatePopularitySmoothness]
      rw [if_pos hlt]
    · simp only [calculateGenreConsistency]
      rw [if_pos hlt]
  · intro h2
    simp only [calculateGenreConsistency]
    rw [if_neg (by omega), List.length_map]

/-- Witness for C9's conditional parts at the 5-element example list. -/
theorem C9_metrics_witness :
    calculateGenreConsistency recsC9 =
      (((recsC9.map (fun r => r.track.genre)).dedup.length : Nat) : Rat) /
        ((recsC9.length : Nat) : Rat) :=
  (C9_metrics recsC9).2.2.2.2.1 (by decide)

/-- C10: a popularity of 0 behaves like an absent popularity everywhere the
scorers read it: the >70 bonus is refused for 0 and for `undefined`; the
time-of-day and activity scorers substitute the default 50; the popularity
trend treats the track as having popularity 50; and the popularity-
progression check passes unconditionally when either endpoint is 0 or
absent. -/
theorem C10_zero_popularity (tr : TrackMetadata) (ts1 ts2 : List TrackMetadata)
    (tod act : String) (other : Option Int) (trend : List Int) :
    popBonus (some 0) = 0 ∧ popBonus none = 0 ∧
    popBonus (some 70) = 0 ∧ popBonus (some 71) = 1 ∧
    getTimeOfDayScore { tr with popularity := some 0 } tod =
      getTimeOfDayScore { tr with popularity := some 50 } tod ∧
    getActivityScore { tr with popularity := some 0 } act =
      getActivityScore { tr with popularity := some 50 } act ∧
    calculatePopularityTrend (ts1 ++ { tr with popularity := some 0 } :: ts2) =
      calculatePopularityTrend (ts1 ++ { tr with popularity := some 50 } :: ts2) ∧
    isGoodPopularityTransition (some 0) other trend = true ∧
    isGoodPopularityTransition none other trend = true ∧
    isGoodPopularityTransition other (some 0) trend = true ∧
    isGoodPopularityTransition other none trend = true := by
  refine ⟨by decide, by decide, by decide, by decide, ?_, ?_, ?_, ?_, ?_, ?_, ?_⟩
  · simp [getTimeOfDayScore, jsOrI]
  · simp [getActivityScore, jsOrI]
  · simp [calculatePopularityTrend, jsOrI]
  · simp [isGoodPopularityTransition, truthyPop]
  · simp [isGoodPopularityTransition, truthyPop]
  · simp [isGoodPopularityTransition, truthyPop]
  · simp [isGoodPopularityTransition, truthyPop]

end NextTrack
